import Mathlib

/-!
Shallow embedding of the `custom_ptr_metadata` crate (`src/lib.rs`): a typed
fat-pointer value `PayloadPointer<T>` bundling a non-null address with an
out-of-band metadata value, the `Pointee` capability attaching a metadata type
to a pointee kind, the `GetRawPtr` address-extraction capability, and the
concrete pointee kinds `[T]`, `str` and `RawSlice2D<T>`.

Machine addresses are modelled as `Nat`; a Rust reference is never null, so a
reference carries the invariant that its address is nonzero. Raw memory is a
map from addresses to optional values, `none` standing for a cell that does not
hold a properly initialized value.
-/

namespace CustomPtrMetadata

/-- Model of a non-null thin pointer (Rust `NonNull<()>` or `NonNull<T>` for a
thin `T`): a machine address together with the invariant that it is never zero.
Pointer casts keep the address, so one address-carrying type models every thin
`NonNull<_>`. -/
structure NonNullPtr where
  addr : Nat
  nonnull : addr ≠ 0

/-- Model of a pointee kind together with its `Pointee` capability: `Metadata`
is the associated metadata type of the kind, and `sized` records whether the
pointee type is `Sized`, the bound that gates the operations declared with
`where T: Sized`. -/
structure PointeeKind where
  Metadata : Type
  sized : Bool

/-- The pointee kind `[E]`: `impl<T> Pointee for [T] { type Metadata = usize; }`;
a slice is unsized. -/
abbrev sliceKind (E : Type) : PointeeKind :=
  { Metadata := Nat, sized := false }

/-- The pointee kind `str`: `impl Pointee for str { type Metadata = usize; }`;
`str` is unsized. -/
abbrev strKind : PointeeKind :=
  { Metadata := Nat, sized := false }

/-- The pointee kind `RawSlice2D<E>`: a zero-size marker struct, hence `Sized`,
with `impl<T> Pointee for RawSlice2D<T> { type Metadata = (usize, usize); }`
(the two extents lenx, leny). -/
abbrev rawSlice2DKind (E : Type) : PointeeKind :=
  { Metadata := Nat × Nat, sized := true }

/-- Model of `PayloadPointer<T>`: a non-null address plus a metadata value of
the pointee kind's metadata type. The `PhantomData<*const T>` field has no
runtime content and is omitted. -/
structure PayloadPointer (T : PointeeKind) where
  ptr : NonNullPtr
  meta : T.Metadata

/-- Model of `PayloadPointer::metadata_of`: returns the stored metadata
(`self.meta`). -/
def metadata_of {T : PointeeKind} (pp : PayloadPointer T) : T.Metadata :=
  pp.meta

/-- Model of `PayloadPointer::addr`: returns the numeric address of the stored
pointer (`self.ptr.addr()`). -/
def addr {T : PointeeKind} (pp : PayloadPointer T) : Nat :=
  pp.ptr.addr

/-- Model of `PayloadPointer::as_ptr`, declared `where T: Sized`: casts the
stored `NonNull<()>` to `NonNull<T>` (`self.ptr.cast()`); the cast keeps the
address, so the result is the stored pointer. The hypothesis mirrors the
`T: Sized` bound that gates availability of the method. -/
def as_ptr {T : PointeeKind} (pp : PayloadPointer T) (h : T.sized = true) : NonNullPtr :=
  pp.ptr

/-- Model of `PayloadPointer::from_raw_parts`: stores the given pointer and
metadata verbatim. -/
def from_raw_parts {T : PointeeKind} (ptr : NonNullPtr) (meta : T.Metadata) :
    PayloadPointer T :=
  { ptr := ptr, meta := meta }

/-- Model of `PayloadPointer::into_raw_parts`, declared `where T: Sized`:
returns `(self.ptr.cast(), self.meta)`; the cast keeps the address. -/
def into_raw_parts {T : PointeeKind} (pp : PayloadPointer T) (h : T.sized = true) :
    NonNullPtr × T.Metadata :=
  (pp.ptr, pp.meta)

/-- Model of a Rust reference `&A` or `&mut A`: the address of the referent
(references are never null, hence the invariant) together with the referent
value itself. -/
structure Ref (A : Type) where
  addr : Nat
  nonnull : addr ≠ 0
  referent : A

/-- Model of `GetRawPtr::get_raw_const_ptr_from_ref`: the address comes from
the reference (`addr as *const AddrSource as *mut ()`, wrapped with
`NonNull::new_unchecked`, justified because references are never null) and the
metadata comes from the `meta` argument; the referent value is never
consulted. -/
def get_raw_const_ptr_from_ref (T : PointeeKind) {A : Type} (r : Ref A)
    (meta : T.Metadata) : PayloadPointer T :=
  from_raw_parts { addr := r.addr, nonnull := r.nonnull } meta

/-- Model of `GetRawPtr::get_raw_mut_ptr_from_ref`: same body as the const
entry point, taking the address from a mutable reference
(`addr as *mut AddrSource as *mut ()`). -/
def get_raw_mut_ptr_from_ref (T : PointeeKind) {A : Type} (r : Ref A)
    (meta : T.Metadata) : PayloadPointer T :=
  from_raw_parts { addr := r.addr, nonnull := r.nonnull } meta

/-- Model of `NonNull<[T]>`: a fat raw-slice pointer, i.e. a data address and
an element count, whose data address is never zero. -/
structure RawSliceNN where
  addr : Nat
  len : Nat
  nonnull : addr ≠ 0

/-- Model of `PayloadPointer::<[T]>::to_raw_slice`:
`ptr::slice_from_raw_parts_mut(self.ptr.as_ptr().cast(), self.meta)` builds a
raw slice whose data address is the stored address and whose length is the
stored metadata; the `NonNull::new_unchecked` wrapping is justified because the
data address comes from the stored `NonNull`. -/
def to_raw_slice {E : Type} (pp : PayloadPointer (sliceKind E)) : RawSliceNN :=
  { addr := pp.ptr.addr, len := pp.meta, nonnull := pp.ptr.nonnull }

/-- Model of `PayloadPointer::<str>::to_raw_str`: a `*const str` fat pointer,
i.e. a plain (data address, byte length) pair with no non-null wrapper. -/
def to_raw_str (pp : PayloadPointer strKind) : Nat × Nat :=
  (pp.ptr.addr, pp.meta)

/-- Model of the derived `PartialEq`/`Eq` on `PayloadPointer`
(`#[derive(PartialEq, Eq)]`): fieldwise equality in declaration order `ptr`,
`meta` (the trailing `PhantomData` field always compares equal); equality of
`NonNull<()>` values is equality of the pointers. -/
def derivedEq {T : PointeeKind} (a b : PayloadPointer T) : Prop :=
  a.ptr = b.ptr ∧ a.meta = b.meta

/-- Model of the derived `PartialOrd` comparison on `PayloadPointer`
(`#[derive(PartialOrd)]`): compare the fields in declaration order, moving to
the next field only on `Ordering.eq` (the trailing `PhantomData` field always
compares equal). Comparing `NonNull<()>` pointers compares their addresses; the
metadata type is totally ordered, mirroring the `Ord` bound on
`Pointee::Metadata`. -/
def derivedCmp {T : PointeeKind} [LinearOrder T.Metadata] (a b : PayloadPointer T) :
    Ordering :=
  match compare a.ptr.addr b.ptr.addr with
  | Ordering.eq => compare a.meta b.meta
  | o => o

/-- The derived strict order on `PayloadPointer`: `a` is below `b` exactly when
the derived comparison returns `Ordering.lt`. -/
def derivedLt {T : PointeeKind} [LinearOrder T.Metadata] (a b : PayloadPointer T) : Prop :=
  derivedCmp a b = Ordering.lt

/-- A pointee kind is metadata-bearing when its metadata type distinguishes at
least two values, i.e. the metadata carries actual information. -/
def metadataBearing (T : PointeeKind) : Prop :=
  ∃ m1 m2 : T.Metadata, m1 ≠ m2

/-- Availability of `as_ptr` as declared in the source: the method carries the
single bound `where T: Sized`, so it exists exactly for the sized pointee
kinds. -/
def asPtrAvailable (T : PointeeKind) : Prop :=
  T.sized = true

/-- Model of raw memory: a map from addresses to values of a value type `V`,
with `none` at addresses that do not hold a properly initialized `V`; one cell
holds one value of `V`. -/
abbrev Mem (V : Type) : Type :=
  Nat → Option V

/-- Model of `core::ptr::read` at an address: returns the value stored there
and leaves the memory unchanged, a non-destructive bitwise copy that does not
move the value away from its origin. -/
def ptrRead {V : Type} (mem : Mem V) (a : Nat) : Option V × Mem V :=
  (mem a, mem)

/-- Model of `PayloadPointer::deref`, whose body is
`core::ptr::read(pp.ptr.as_ptr().cast())`: a read at the stored address of the
argument `pp`. The first parameter models the `T` of the enclosing
`impl<T: ?Sized + Pointee> PayloadPointer<T>`, which the body never uses; `hP`
mirrors the `P: Pointee + Sized` bound on the argument's own pointee kind. -/
def deref (Tself : PointeeKind) {P : PointeeKind} (hP : P.sized = true) {V : Type}
    (mem : Mem V) (pp : PayloadPointer P) : Option V × Mem V :=
  ptrRead mem pp.ptr.addr

/-- Reading a raw slice back from memory: the materialized sequence view, cell
by cell starting at the data address. -/
def readSlice {V : Type} (mem : Mem V) (rs : RawSliceNN) : List (Option V) :=
  (List.range rs.len).map (fun i => mem (rs.addr + i))

/-- Outcome of a call into the library: either a normal return with a value or
a raised fault carrying a message. The body of every public operation in the
source is straight-line code with no assertion, checked arithmetic, indexing,
`Option`/`Result`, or early return, which the outcome-level translations below
make explicit. -/
inductive RustOutcome (α : Type) where
  | ok (val : α)
  | panicked (msg : String)

/-- Outcome-level `PayloadPointer::from_raw_parts`: a plain struct literal,
returns normally on every input. -/
def from_raw_parts_outcome {T : PointeeKind} (ptr : NonNullPtr) (meta : T.Metadata) :
    RustOutcome (PayloadPointer T) :=
  RustOutcome.ok (from_raw_parts ptr meta)

/-- Outcome-level `GetRawPtr::get_raw_const_ptr_from_ref`: an address cast plus
a struct literal, returns normally on every input. -/
def get_raw_const_ptr_from_ref_outcome (T : PointeeKind) {A : Type} (r : Ref A)
    (meta : T.Metadata) : RustOutcome (PayloadPointer T) :=
  RustOutcome.ok (get_raw_const_ptr_from_ref T r meta)

/-- Outcome-level `GetRawPtr::get_raw_mut_ptr_from_ref`: an address cast plus a
struct literal, returns normally on every input. -/
def get_raw_mut_ptr_from_ref_outcome (T : PointeeKind) {A : Type} (r : Ref A)
    (meta : T.Metadata) : RustOutcome (PayloadPointer T) :=
  RustOutcome.ok (get_raw_mut_ptr_from_ref T r meta)

/-- Outcome-level `PayloadPointer::metadata_of`: a field read, returns normally
on every input. -/
def metadata_of_outcome {T : PointeeKind} (pp : PayloadPointer T) :
    RustOutcome T.Metadata :=
  RustOutcome.ok (metadata_of pp)

/-- Outcome-level `PayloadPointer::addr`: a field read plus an address query,
returns normally on every input. -/
def addr_outcome {T : PointeeKind} (pp : PayloadPointer T) : RustOutcome Nat :=
  RustOutcome.ok (addr pp)

/-- Outcome-level `PayloadPointer::as_ptr`: a pointer cast, returns normally on
every input. -/
def as_ptr_outcome {T : PointeeKind} (pp : PayloadPointer T) (h : T.sized = true) :
    RustOutcome NonNullPtr :=
  RustOutcome.ok (as_ptr pp h)

/-- Outcome-level `PayloadPointer::into_raw_parts`: a cast and a pair literal,
returns normally on every input. -/
def into_raw_parts_outcome {T : PointeeKind} (pp : PayloadPointer T)
    (h : T.sized = true) : RustOutcome (NonNullPtr × T.Metadata) :=
  RustOutcome.ok (into_raw_parts pp h)

/-- Outcome-level `PayloadPointer::<[T]>::to_raw_slice`: a fat-pointer literal,
returns normally on every input. -/
def to_raw_slice_outcome {E : Type} (pp : PayloadPointer (sliceKind E)) :
    RustOutcome RawSliceNN :=
  RustOutcome.ok (to_raw_slice pp)

/-- Outcome-level `PayloadPointer::<str>::to_raw_str`: a fat-pointer literal,
returns normally on every input. -/
def to_raw_str_outcome (pp : PayloadPointer strKind) : RustOutcome (Nat × Nat) :=
  RustOutcome.ok (to_raw_str pp)

/-- Outcome-level `PayloadPointer::deref`: a raw read, which never raises a
reported fault — misuse of the documented safety precondition is undefined
behavior at the unsafe boundary, not an error return. -/
def deref_outcome (Tself : PointeeKind) {P : PointeeKind} (hP : P.sized = true)
    {V : Type} (mem : Mem V) (pp : PayloadPointer P) :
    RustOutcome (Option V × Mem V) :=
  RustOutcome.ok (deref Tself hP mem pp)

/-- A concrete memory holding the integers 10, 20, 30 at addresses 100, 101,
102 and nothing elsewhere. -/
def memScenario : Mem Int := fun a =>
  if a = 100 then some 10 else if a = 101 then some 20
  else if a = 102 then some 30 else none

/-- A concrete reference to the three-element array holding 10, 20, 30, at
address 100. -/
def refScenario : Ref (List Int) :=
  Ref.mk 100 (by decide) [10, 20, 30]

end CustomPtrMetadata

namespace CustomPtrMetadata

/-- Two non-null pointers with the same address are equal: the invariant field
carries no data. -/
theorem NonNullPtr.addr_inj {a b : NonNullPtr} (h : a.addr = b.addr) : a = b := by
  cases a
  cases b
  cases h
  rfl

/-- C1: Metadata fidelity — for every source reference and every explicitly
supplied metadata value, both extraction entry points produce a pointer whose
stored metadata is exactly the supplied value, never anything derived from the
referent; in particular a 2-D view over a 3×3 array extracted with metadata
(9, 1) reports exactly (9, 1). -/
theorem metadata_fidelity :
    (∀ (T : PointeeKind) (A : Type) (r : Ref A) (m : T.Metadata),
      metadata_of (get_raw_const_ptr_from_ref T r m) = m ∧
      metadata_of (get_raw_mut_ptr_from_ref T r m) = m) ∧
    (∀ (r : Ref (List (List Int))),
      metadata_of (get_raw_const_ptr_from_ref (rawSlice2DKind Int) r (9, 1)) = (9, 1)) :=
  ⟨fun _ _ _ _ => ⟨rfl, rfl⟩, fun _ => rfl⟩

/-- C2: Address fidelity — the pointer produced by either extraction entry
point has exactly the numeric address of the referenced value. -/
theorem address_fidelity (T : PointeeKind) (A : Type) (r : Ref A) (m : T.Metadata) :
    addr (get_raw_const_ptr_from_ref T r m) = r.addr ∧
    addr (get_raw_mut_ptr_from_ref T r m) = r.addr :=
  ⟨rfl, rfl⟩

/-- C3: Round-trip identity — for every non-null address and every metadata
value of a fixed-size pointee kind, decomposing the pointer built from those
parts returns them unchanged, and the returned raw pointer has the same address
as the input pointer. -/
theorem round_trip_identity (T : PointeeKind) (h : T.sized = true) (a : NonNullPtr)
    (m : T.Metadata) :
    into_raw_parts (from_raw_parts a m) h = (a, m) ∧
    (into_raw_parts (from_raw_parts a m) h).1.addr = a.addr :=
  ⟨rfl, rfl⟩

/-- Witness for the round-trip identity at the sized kind `RawSlice2D<i32>`,
address 4 and metadata (2, 5). -/
theorem round_trip_identity_witness :
    (rawSlice2DKind Int).sized = true ∧
    (into_raw_parts (@from_raw_parts (rawSlice2DKind Int) (NonNullPtr.mk 4 (by decide)) (2, 5)) rfl
        = (NonNullPtr.mk 4 (by decide), (2, 5)) ∧
      (into_raw_parts (@from_raw_parts (rawSlice2DKind Int) (NonNullPtr.mk 4 (by decide)) (2, 5)) rfl).1.addr
        = (NonNullPtr.mk 4 (by decide)).addr) :=
  ⟨rfl, round_trip_identity (rawSlice2DKind Int) rfl (NonNullPtr.mk 4 (by decide)) (2, 5)⟩

/-- C4: Non-null invariant — extraction from a reference never yields address
zero, `addr` never returns 0 on any payload pointer, and `as_ptr`,
`into_raw_parts` and `to_raw_slice` return pointers with nonzero address. -/
theorem nonnull_invariant :
    (∀ (T : PointeeKind) (A : Type) (r : Ref A) (m : T.Metadata),
      addr (get_raw_const_ptr_from_ref T r m) ≠ 0 ∧
      addr (get_raw_mut_ptr_from_ref T r m) ≠ 0) ∧
    (∀ (T : PointeeKind) (pp : PayloadPointer T), addr pp ≠ 0) ∧
    (∀ (T : PointeeKind) (pp : PayloadPointer T) (h : T.sized = true),
      (as_ptr pp h).addr ≠ 0) ∧
    (∀ (T : PointeeKind) (pp : PayloadPointer T) (h : T.sized = true),
      (into_raw_parts pp h).1.addr ≠ 0) ∧
    (∀ (E : Type) (pp : PayloadPointer (sliceKind E)), (to_raw_slice pp).addr ≠ 0) :=
  ⟨fun _ _ r _ => ⟨r.nonnull, r.nonnull⟩,
   fun _ pp => pp.ptr.nonnull,
   fun _ pp _ => pp.ptr.nonnull,
   fun _ pp _ => pp.ptr.nonnull,
   fun _ pp => pp.ptr.nonnull⟩

/-- Witness for the non-null invariant: concrete instances of each conjunct at
address 7, including the `Sized`-gated operations at the kind
`RawSlice2D<i32>`. -/
theorem nonnull_invariant_witness :
    addr (get_raw_const_ptr_from_ref (sliceKind Int) (Ref.mk 7 (by decide) ([] : List Int)) 3) ≠ 0 ∧
    (as_ptr (PayloadPointer.mk (NonNullPtr.mk 7 (by decide)) ((2, 2) : Nat × Nat) :
        PayloadPointer (rawSlice2DKind Int)) rfl).addr ≠ 0 ∧
    (to_raw_slice (PayloadPointer.mk (NonNullPtr.mk 7 (by decide)) (3 : Nat) :
        PayloadPointer (sliceKind Int))).addr ≠ 0 :=
  ⟨(nonnull_invariant.1 (sliceKind Int) (List Int) (Ref.mk 7 (by decide) []) 3).1,
   nonnull_invariant.2.2.1 (rawSlice2DKind Int)
     (PayloadPointer.mk (NonNullPtr.mk 7 (by decide)) (2, 2)) rfl,
   nonnull_invariant.2.2.2.2 Int (PayloadPointer.mk (NonNullPtr.mk 7 (by decide)) 3)⟩

/-- C5: Ordering consistency — two payload pointers of the same pointee kind
are equal under the derived equality iff both their addresses and their
metadata are equal, and the derived strict order is lexicographic on the pair
(address, metadata): smaller address first, metadata breaking address ties. -/
theorem ordering_consistency {T : PointeeKind} [LinearOrder T.Metadata]
    (a b : PayloadPointer T) :
    (derivedEq a b ↔ (addr a = addr b ∧ metadata_of a = metadata_of b)) ∧
    (derivedLt a b ↔
      (addr a < addr b ∨ (addr a = addr b ∧ metadata_of a < metadata_of b))) := by
  constructor
  · constructor
    · rintro ⟨hp, hm⟩
      exact ⟨congrArg NonNullPtr.addr hp, hm⟩
    · rintro ⟨hp, hm⟩
      exact ⟨NonNullPtr.addr_inj hp, hm⟩
  · unfold derivedLt derivedCmp addr metadata_of
    rcases lt_trichotomy a.ptr.addr b.ptr.addr with h | h | h
    · have hc : compare a.ptr.addr b.ptr.addr = Ordering.lt := Nat.compare_eq_lt.2 h
      rw [hc]
      simp [h]
    · have hc : compare a.ptr.addr b.ptr.addr = Ordering.eq := Nat.compare_eq_eq.2 h
      rw [hc]
      constructor
      · intro hm
        exact Or.inr ⟨h, compare_lt_iff_lt.1 hm⟩
      · rintro (hlt | ⟨heq, hm⟩)
        · exact absurd h (ne_of_lt hlt)
        · exact compare_lt_iff_lt.2 hm
    · have hc : compare a.ptr.addr b.ptr.addr = Ordering.gt := Nat.compare_eq_gt.2 h
      rw [hc]
      constructor
      · intro hx
        exact Ordering.noConfusion hx
      · rintro (hlt | ⟨heq, hm⟩)
        · exact absurd (lt_trans hlt h) (lt_irrefl _)
        · exact absurd heq (ne_of_gt h)

/-- Witness for ordering consistency at the kind `[i32]` with two concrete
pointers sharing an address and differing in metadata. -/
theorem ordering_consistency_witness :
    (derivedEq (@PayloadPointer.mk (sliceKind Int) (NonNullPtr.mk 8 (by decide)) 2)
        (@PayloadPointer.mk (sliceKind Int) (NonNullPtr.mk 8 (by decide)) 5)
      ↔ (addr (@PayloadPointer.mk (sliceKind Int) (NonNullPtr.mk 8 (by decide)) 2)
            = addr (@PayloadPointer.mk (sliceKind Int) (NonNullPtr.mk 8 (by decide)) 5) ∧
          metadata_of (@PayloadPointer.mk (sliceKind Int) (NonNullPtr.mk 8 (by decide)) 2)
            = metadata_of (@PayloadPointer.mk (sliceKind Int) (NonNullPtr.mk 8 (by decide)) 5))) ∧
    (derivedLt (@PayloadPointer.mk (sliceKind Int) (NonNullPtr.mk 8 (by decide)) 2)
        (@PayloadPointer.mk (sliceKind Int) (NonNullPtr.mk 8 (by decide)) 5)
      ↔ (addr (@PayloadPointer.mk (sliceKind Int) (NonNullPtr.mk 8 (by decide)) 2)
            < addr (@PayloadPointer.mk (sliceKind Int) (NonNullPtr.mk 8 (by decide)) 5) ∨
          (addr (@PayloadPointer.mk (sliceKind Int) (NonNullPtr.mk 8 (by decide)) 2)
              = addr (@PayloadPointer.mk (sliceKind Int) (NonNullPtr.mk 8 (by decide)) 5) ∧
            metadata_of (@PayloadPointer.mk (sliceKind Int) (NonNullPtr.mk 8 (by decide)) 2)
              < metadata_of (@PayloadPointer.mk (sliceKind Int) (NonNullPtr.mk 8 (by decide)) 5)))) :=
  ordering_consistency (@PayloadPointer.mk (sliceKind Int) (NonNullPtr.mk 8 (by decide)) 2)
    (@PayloadPointer.mk (sliceKind Int) (NonNullPtr.mk 8 (by decide)) 5)

/-- C6 counterexample: `as_ptr` is available for the pointee kind
`RawSlice2D<i32>` — its `where T: Sized` bound holds since the marker struct is
zero-sized — yet that kind is metadata-bearing: its metadata type
`(usize, usize)` distinguishes (3, 3) from (9, 1). The repository's own test
`test_2d_slice` calls `as_ptr` on exactly this kind, so availability is not
restricted to non-metadata-bearing kinds. -/
theorem as_ptr_available_on_metadata_bearing_kind :
    asPtrAvailable (rawSlice2DKind Int) ∧ metadataBearing (rawSlice2DKind Int) :=
  ⟨rfl, ⟨(3, 3), (9, 1), by decide⟩⟩

/-- C6 (amended): `as_ptr` is available exactly when the pointee kind is
fixed-size (`Sized`), whether or not the kind is metadata-bearing, and the
returned pointer is non-null with address exactly equal to the stored address,
the metadata being discarded. -/
theorem as_ptr_address_exact {T : PointeeKind} (pp : PayloadPointer T)
    (h : T.sized = true) :
    (as_ptr pp h).addr = addr pp ∧ (as_ptr pp h).addr ≠ 0 ∧ asPtrAvailable T :=
  ⟨rfl, pp.ptr.nonnull, h⟩

/-- Witness for the amended materialization guarantee at the sized,
metadata-bearing kind `RawSlice2D<i32>`, address 12 and metadata (3, 3). -/
theorem as_ptr_address_exact_witness :
    (rawSlice2DKind Int).sized = true ∧
    ((as_ptr (@PayloadPointer.mk (rawSlice2DKind Int) (NonNullPtr.mk 12 (by decide)) (3, 3)) rfl).addr
        = addr (@PayloadPointer.mk (rawSlice2DKind Int) (NonNullPtr.mk 12 (by decide)) (3, 3)) ∧
      (as_ptr (@PayloadPointer.mk (rawSlice2DKind Int) (NonNullPtr.mk 12 (by decide)) (3, 3)) rfl).addr ≠ 0 ∧
      asPtrAvailable (rawSlice2DKind Int)) :=
  ⟨rfl, as_ptr_address_exact (@PayloadPointer.mk (rawSlice2DKind Int) (NonNullPtr.mk 12 (by decide)) (3, 3)) rfl⟩

/-- C7: Sequence view conversion — `to_raw_slice` returns a raw slice view
whose data address equals the stored address and whose element count equals the
stored metadata; extracting from a reference to a 3-element array holding
10, 20, 30 with metadata 3 yields a view of length 3 whose cells read back as
exactly 10, 20, 30. -/
theorem to_raw_slice_view :
    (∀ (E : Type) (pp : PayloadPointer (sliceKind E)),
      (to_raw_slice pp).addr = addr pp ∧ (to_raw_slice pp).len = metadata_of pp) ∧
    (∀ (mem : Mem Int) (r : Ref (List Int)),
      mem r.addr = some 10 → mem (r.addr + 1) = some 20 → mem (r.addr + 2) = some 30 →
      (to_raw_slice (get_raw_const_ptr_from_ref (sliceKind Int) r 3)).len = 3 ∧
      readSlice mem (to_raw_slice (get_raw_const_ptr_from_ref (sliceKind Int) r 3))
        = [some 10, some 20, some 30]) := by
  refine ⟨fun E pp => ⟨rfl, rfl⟩, fun mem r h0 h1 h2 => ⟨rfl, ?_⟩⟩
  show (List.range 3).map (fun i => mem (r.addr + i)) = [some 10, some 20, some 30]
  have hr : List.range 3 = [0, 1, 2] := rfl
  rw [hr]
  simp only [List.map_cons, List.map_nil]
  rw [Nat.add_zero, h0, h1, h2]

/-- Witness for the sequence view scenario: the concrete memory holding
10, 20, 30 at addresses 100, 101, 102 and the concrete reference at
address 100. -/
theorem to_raw_slice_view_witness :
    memScenario refScenario.addr = some 10 ∧
    memScenario (refScenario.addr + 1) = some 20 ∧
    memScenario (refScenario.addr + 2) = some 30 ∧
    ((to_raw_slice (get_raw_const_ptr_from_ref (sliceKind Int) refScenario 3)).len = 3 ∧
      readSlice memScenario
          (to_raw_slice (get_raw_const_ptr_from_ref (sliceKind Int) refScenario 3))
        = [some 10, some 20, some 30]) :=
  ⟨by decide, by decide, by decide,
   to_raw_slice_view.2 memScenario refScenario (by decide) (by decide) (by decide)⟩

/-- C8: Totality of the public interface — every public operation returns
normally on every input: each outcome-level translation yields a normal return
with the value of the pure operation, never a raised fault; misuse lives at the
unsafe boundary and is never reported as an error. -/
theorem totality_public_interface :
    (∀ (T : PointeeKind) (ptr : NonNullPtr) (m : T.Metadata),
      from_raw_parts_outcome ptr m = RustOutcome.ok (@from_raw_parts T ptr m)) ∧
    (∀ (T : PointeeKind) (A : Type) (r : Ref A) (m : T.Metadata),
      get_raw_const_ptr_from_ref_outcome T r m
        = RustOutcome.ok (get_raw_const_ptr_from_ref T r m) ∧
      get_raw_mut_ptr_from_ref_outcome T r m
        = RustOutcome.ok (get_raw_mut_ptr_from_ref T r m)) ∧
    (∀ (T : PointeeKind) (pp : PayloadPointer T),
      metadata_of_outcome pp = RustOutcome.ok (metadata_of pp) ∧
      addr_outcome pp = RustOutcome.ok (addr pp)) ∧
    (∀ (T : PointeeKind) (pp : PayloadPointer T) (h : T.sized = true),
      as_ptr_outcome pp h = RustOutcome.ok (as_ptr pp h) ∧
      into_raw_parts_outcome pp h = RustOutcome.ok (into_raw_parts pp h)) ∧
    (∀ (E : Type) (pp : PayloadPointer (sliceKind E)),
      to_raw_slice_outcome pp = RustOutcome.ok (to_raw_slice pp)) ∧
    (∀ (pp : PayloadPointer strKind),
      to_raw_str_outcome pp = RustOutcome.ok (to_raw_str pp)) ∧
    (∀ (Tself : PointeeKind) (P : PointeeKind) (hP : P.sized = true) (V : Type)
      (mem : Mem V) (pp : PayloadPointer P),
      @deref_outcome Tself P hP V mem pp
        = RustOutcome.ok (@deref Tself P hP V mem pp)) :=
  ⟨fun _ _ _ => rfl,
   fun _ _ _ _ => ⟨rfl, rfl⟩,
   fun _ _ => ⟨rfl, rfl⟩,
   fun _ _ _ => ⟨rfl, rfl⟩,
   fun _ _ => rfl,
   fun _ => rfl,
   fun _ _ _ _ _ _ => rfl⟩

/-- Witness for totality at concrete inputs, discharging the `Sized`
hypotheses at the kind `RawSlice2D<i32>`. -/
theorem totality_public_interface_witness :
    (rawSlice2DKind Int).sized = true ∧
    (as_ptr_outcome (@PayloadPointer.mk (rawSlice2DKind Int) (NonNullPtr.mk 5 (by decide)) (1, 1)) rfl
        = RustOutcome.ok
            (as_ptr (@PayloadPointer.mk (rawSlice2DKind Int) (NonNullPtr.mk 5 (by decide)) (1, 1)) rfl) ∧
      into_raw_parts_outcome (@PayloadPointer.mk (rawSlice2DKind Int) (NonNullPtr.mk 5 (by decide)) (1, 1)) rfl
        = RustOutcome.ok
            (into_raw_parts (@PayloadPointer.mk (rawSlice2DKind Int) (NonNullPtr.mk 5 (by decide)) (1, 1)) rfl)) ∧
    @deref_outcome strKind (rawSlice2DKind Int) rfl Int memScenario
        (@PayloadPointer.mk (rawSlice2DKind Int) (NonNullPtr.mk 100 (by decide)) (1, 1))
      = RustOutcome.ok
          (@deref strKind (rawSlice2DKind Int) rfl Int memScenario
            (@PayloadPointer.mk (rawSlice2DKind Int) (NonNullPtr.mk 100 (by decide)) (1, 1))) :=
  ⟨rfl,
   totality_public_interface.2.2.2.1 (rawSlice2DKind Int)
     (@PayloadPointer.mk (rawSlice2DKind Int) (NonNullPtr.mk 5 (by decide)) (1, 1)) rfl,
   totality_public_interface.2.2.2.2.2.2 strKind (rawSlice2DKind Int) rfl Int memScenario
     (@PayloadPointer.mk (rawSlice2DKind Int) (NonNullPtr.mk 100 (by decide)) (1, 1))⟩

/-- C9: Unsafe dereference-by-copy — when the stored address holds a properly
initialized value, `deref` returns exactly that value, leaves the memory
unchanged, and coincides with `core::ptr::read` at the pointer's stored
address. -/
theorem deref_reads_value (Tself : PointeeKind) {P : PointeeKind}
    (hP : P.sized = true) {V : Type} (mem : Mem V) (pp : PayloadPointer P) (v : V)
    (hv : mem (addr pp) = some v) :
    (deref Tself hP mem pp).1 = some v ∧
    (deref Tself hP mem pp).2 = mem ∧
    deref Tself hP mem pp = ptrRead mem (addr pp) :=
  ⟨hv, rfl, rfl⟩

/-- Witness for dereference-by-copy: reading the value 10 stored at
address 100 of the concrete memory. -/
theorem deref_reads_value_witness :
    (rawSlice2DKind Int).sized = true ∧
    memScenario (addr (@PayloadPointer.mk (rawSlice2DKind Int) (NonNullPtr.mk 100 (by decide)) (1, 1)))
      = some 10 ∧
    ((@deref strKind (rawSlice2DKind Int) rfl Int memScenario
        (@PayloadPointer.mk (rawSlice2DKind Int) (NonNullPtr.mk 100 (by decide)) (1, 1))).1 = some 10 ∧
      (@deref strKind (rawSlice2DKind Int) rfl Int memScenario
        (@PayloadPointer.mk (rawSlice2DKind Int) (NonNullPtr.mk 100 (by decide)) (1, 1))).2 = memScenario ∧
      @deref strKind (rawSlice2DKind Int) rfl Int memScenario
          (@PayloadPointer.mk (rawSlice2DKind Int) (NonNullPtr.mk 100 (by decide)) (1, 1))
        = ptrRead memScenario
            (addr (@PayloadPointer.mk (rawSlice2DKind Int) (NonNullPtr.mk 100 (by decide)) (1, 1)))) :=
  ⟨rfl, by decide,
   deref_reads_value strKind rfl memScenario
     (@PayloadPointer.mk (rawSlice2DKind Int) (NonNullPtr.mk 100 (by decide)) (1, 1)) 10 (by decide)⟩

/-- C10: the result of `deref` does not depend on the `Self` type parameter of
the enclosing `impl`: invoked through any two pointee kinds on the same
argument, it reads from the same stored address and returns the same value. -/
theorem deref_ignores_self_kind (T1 T2 : PointeeKind) {P : PointeeKind}
    (hP : P.sized = true) {V : Type} (mem : Mem V) (pp : PayloadPointer P) :
    deref T1 hP mem pp = deref T2 hP mem pp ∧
    (deref T1 hP mem pp).1 = mem (addr pp) :=
  ⟨rfl, rfl⟩

/-- Witness for the irrelevance of the `Self` kind: invoking `deref` through
`str` and through `[i32]` on the same pointer gives the same result. -/
theorem deref_ignores_self_kind_witness :
    (rawSlice2DKind Int).sized = true ∧
    (@deref strKind (rawSlice2DKind Int) rfl Int memScenario
        (@PayloadPointer.mk (rawSlice2DKind Int) (NonNullPtr.mk 100 (by decide)) (1, 1))
      = @deref (sliceKind Int) (rawSlice2DKind Int) rfl Int memScenario
          (@PayloadPointer.mk (rawSlice2DKind Int) (NonNullPtr.mk 100 (by decide)) (1, 1)) ∧
      (@deref strKind (rawSlice2DKind Int) rfl Int memScenario
        (@PayloadPointer.mk (rawSlice2DKind Int) (NonNullPtr.mk 100 (by decide)) (1, 1))).1
        = memScenario
            (addr (@PayloadPointer.mk (rawSlice2DKind Int) (NonNullPtr.mk 100 (by decide)) (1, 1)))) :=
  ⟨rfl,
   deref_ignores_self_kind strKind (sliceKind Int) rfl memScenario
     (@PayloadPointer.mk (rawSlice2DKind Int) (NonNullPtr.mk 100 (by decide)) (1, 1))⟩

end CustomPtrMetadata
